import Mathlib

/-!
# Verification of the AB8500 charger driver core
  (drivers/power/ab8500_charger.c)

A shallow embedding of the charger-control logic: the current/voltage
lookup tables, the current stepping engine, the USB classification
logic, the VBUS-drop retry controller, the connection teardown, charger
detection and the exposed health property.  Hardware register
transactions are modelled by explicit input values for each read and by
an event trace for the performed operations; register transactions are
modelled as succeeding (the I/O-failure propagation paths are outside
the properties proved here).  C `int` values are modelled as `Int`,
register bytes as `Nat` with explicit truncation where the code casts.
-/

namespace AB8500

/-! ## Constants (from ab8500_charger.c and the ab8500-bm.h register map;
the charger-bank addresses are corroborated by the driver's own debug
strings, e.g. "Disable the charger by SW: @0x0BC0 0x02"). -/

def NO_PW_CONN : Int := 0
def AC_PW_CONN : Int := 1
def USB_PW_CONN : Int := 2

def VBUS_DET_DBNC100 : Nat := 0x02
def VBUS_DET_DBNC1 : Nat := 0x01

def MAIN_CH_INPUT_CURR_SHIFT : Nat := 4
def VBUS_IN_CURR_LIM_SHIFT : Nat := 4
def AUTO_VBUS_IN_CURR_LIM_SHIFT : Nat := 4
def VBUS_IN_CURR_LIM_RETRY_SET_TIME : Nat := 30
def VBUS_IN_CURR_LIM_RETRY_MAX_TIME : Nat := 3840

def LOW_VOLT_REG : Int := 0x4E

/-- Linux errno values used by the driver (returned negated). -/
def EPERM : Int := 1
def ENXIO : Int := 6
def EBUSY : Int := 16

/-- Register bank of the charger block (debug string "@0x0BC0"). -/
def AB8500_CHARGER_BANK : Nat := 0x0B
/-- Register bank holding the main watchdog control (debug string "0x0201"). -/
def AB8500_SYS_CTRL2_BANK : Nat := 0x02

def AB8500_MAIN_WDOG_CTRL_REG : Nat := 0x01
def AB8500_USBCH_CTRL1_REG : Nat := 0xC0
def AB8500_CHARGER_CTRL : Nat := 0x56
def AB8500_CH_STATUS2_REG : Nat := 0x02
def AB8500_CH_USBCH_STAT1_REG : Nat := 0x02
def AB8500_CH_USBCH_STAT2_REG : Nat := 0x03
def AB8500_MCH_IPT_CURLVL_REG : Nat := 0x0A
def AB8500_CH_OPT_CRNTLVL_REG : Nat := 0x40
def AB8500_USBCH_IPT_CRNTLVL_REG : Nat := 0x44

/-- VBUS input current limit levels, in mA. -/
def USB_CH_IP_CUR_LVL_0P05 : Int := 50
def USB_CH_IP_CUR_LVL_0P09 : Int := 98
def USB_CH_IP_CUR_LVL_0P19 : Int := 193
def USB_CH_IP_CUR_LVL_0P29 : Int := 290
def USB_CH_IP_CUR_LVL_0P38 : Int := 380
def USB_CH_IP_CUR_LVL_0P45 : Int := 450
def USB_CH_IP_CUR_LVL_0P5 : Int := 500
def USB_CH_IP_CUR_LVL_0P6 : Int := 600
def USB_CH_IP_CUR_LVL_0P7 : Int := 700
def USB_CH_IP_CUR_LVL_0P8 : Int := 800
def USB_CH_IP_CUR_LVL_0P9 : Int := 900
def USB_CH_IP_CUR_LVL_1P0 : Int := 1000
def USB_CH_IP_CUR_LVL_1P1 : Int := 1100
def USB_CH_IP_CUR_LVL_1P3 : Int := 1300
def USB_CH_IP_CUR_LVL_1P4 : Int := 1400
def USB_CH_IP_CUR_LVL_1P5 : Int := 1500

/-! ## Lookup tables (ab8500_charger.c lines 819-943) -/

/-- `ab8500_charger_voltage_map`: raw register code to charger voltage (mV). -/
def ab8500_charger_voltage_map : List Int :=
  [3500, 3525, 3550, 3575, 3600, 3625, 3650, 3675, 3700, 3725, 3750,
   3775, 3800, 3825, 3850, 3875, 3900, 3925, 3950, 3975, 4000, 4025,
   4050, 4060, 4070, 4080, 4090, 4100, 4110, 4120, 4130, 4140, 4150,
   4160, 4170, 4180, 4190, 4200, 4210, 4220, 4230, 4240, 4250, 4260,
   4270, 4280, 4290, 4300, 4310, 4320, 4330, 4340, 4350, 4360, 4370,
   4380, 4390, 4400, 4410, 4420, 4430, 4440, 4450, 4460, 4470, 4480,
   4490, 4500, 4510, 4520, 4530, 4540, 4550, 4560, 4570, 4580, 4590,
   4600]

/-- `ab8500_charger_current_map`: raw register code to charger current (mA). -/
def ab8500_charger_current_map : List Int :=
  [100, 200, 300, 400, 500, 600, 700, 800, 900, 1000, 1100, 1200,
   1300, 1400, 1500]

/-- `ab8500_charger_vbus_in_curr_map`: raw code to VBUS input current (mA). -/
def ab8500_charger_vbus_in_curr_map : List Int :=
  [USB_CH_IP_CUR_LVL_0P05, USB_CH_IP_CUR_LVL_0P09, USB_CH_IP_CUR_LVL_0P19,
   USB_CH_IP_CUR_LVL_0P29, USB_CH_IP_CUR_LVL_0P38, USB_CH_IP_CUR_LVL_0P45,
   USB_CH_IP_CUR_LVL_0P5, USB_CH_IP_CUR_LVL_0P6, USB_CH_IP_CUR_LVL_0P7,
   USB_CH_IP_CUR_LVL_0P8, USB_CH_IP_CUR_LVL_0P9, USB_CH_IP_CUR_LVL_1P0,
   USB_CH_IP_CUR_LVL_1P1, USB_CH_IP_CUR_LVL_1P3, USB_CH_IP_CUR_LVL_1P4,
   USB_CH_IP_CUR_LVL_1P5]

/-! ## Encoders (ab8500_charger.c lines 945-1004)

Each C encoder scans the table with a `for` loop `if (v < m[i]) return
i - 1;` starting at index 1 (voltage) or 0 (currents).  `scanLoop v l i0`
models that loop on the table suffix `l` whose first element has index
`i0`: it returns the table index of the first element greater than `v`,
or `none` when the loop falls through. -/

def scanLoop (v : Int) : List Int → Nat → Option Nat
  | [], _ => none
  | x :: xs, i0 => if v < x then some i0 else scanLoop v xs (i0 + 1)

/-- `ab8500_voltage_to_regval` (lines 945-964). -/
def ab8500_voltage_to_regval (voltage : Int) : Int :=
  if voltage < ab8500_charger_voltage_map.getD 0 0 then
    LOW_VOLT_REG
  else
    match scanLoop voltage (ab8500_charger_voltage_map.drop 1) 1 with
    | some i => (i : Int) - 1
    | none =>
      if voltage = ab8500_charger_voltage_map.getD
          (ab8500_charger_voltage_map.length - 1) 0 then
        ((ab8500_charger_voltage_map.length - 1 : Nat) : Int)
      else
        -1

/-- `ab8500_current_to_regval` (lines 966-984). -/
def ab8500_current_to_regval (curr : Int) : Int :=
  if curr < ab8500_charger_current_map.getD 0 0 then
    0
  else
    match scanLoop curr ab8500_charger_current_map 0 with
    | some i => (i : Int) - 1
    | none =>
      if curr = ab8500_charger_current_map.getD
          (ab8500_charger_current_map.length - 1) 0 then
        ((ab8500_charger_current_map.length - 1 : Nat) : Int)
      else
        -1

/-- `ab8500_vbus_in_curr_to_regval` (lines 986-1004). -/
def ab8500_vbus_in_curr_to_regval (curr : Int) : Int :=
  if curr < ab8500_charger_vbus_in_curr_map.getD 0 0 then
    0
  else
    match scanLoop curr ab8500_charger_vbus_in_curr_map 0 with
    | some i => (i : Int) - 1
    | none =>
      if curr = ab8500_charger_vbus_in_curr_map.getD
          (ab8500_charger_vbus_in_curr_map.length - 1) 0 then
        ((ab8500_charger_vbus_in_curr_map.length - 1 : Nat) : Int)
      else
        -1

/-! ### Generic facts about the scan loop -/

theorem scanLoop_first (v : Int) :
    ∀ (l : List Int) (i0 j : Nat), j < l.length →
    (∀ k, k < j → l.getD k 0 ≤ v) → v < l.getD j 0 →
    scanLoop v l i0 = some (i0 + j) := by
  intro l
  induction l with
  | nil => intro i0 j hj _ _; simp at hj
  | cons x xs ih =>
    intro i0 j hj hbelow hhit
    cases j with
    | zero =>
      simp only [List.getD_cons_zero] at hhit
      simp [scanLoop, hhit]
    | succ j' =>
      have hx : x ≤ v := by
        have := hbelow 0 (Nat.succ_pos j')
        simpa using this
      have hxlt : ¬ v < x := not_lt.mpr hx
      simp only [scanLoop, if_neg hxlt]
      have hrec := ih (i0 + 1) j' (by simpa using Nat.lt_of_succ_lt_succ hj)
        (fun k hk => by
          have := hbelow (k + 1) (Nat.succ_lt_succ hk)
          simpa using this)
        (by simpa using hhit)
      rw [hrec]
      congr 1
      omega

theorem scanLoop_none (v : Int) :
    ∀ (l : List Int) (i0 : Nat),
    (∀ k, k < l.length → l.getD k 0 ≤ v) →
    scanLoop v l i0 = none := by
  intro l
  induction l with
  | nil => intro i0 _; rfl
  | cons x xs ih =>
    intro i0 hall
    have hx : x ≤ v := by have := hall 0 (by simp); simpa using this
    simp only [scanLoop, if_neg (not_lt.mpr hx)]
    exact ih (i0 + 1) (fun k hk => by
      have := hall (k + 1) (by simpa using Nat.succ_lt_succ hk)
      simpa using this)


/-! ### Helper facts about `getD` and sorted concrete tables -/

theorem getD_eq_getElem_int (l : List Int) (k : Nat) (h : k < l.length) :
    l.getD k 0 = l[k] := by
  simp [List.getD_eq_getElem?_getD, List.getElem?_eq_getElem h]

theorem chain_getD_le (l : List Int) (hl : l.Chain' (· < ·)) {k j : Nat}
    (hkj : k ≤ j) (hj : j < l.length) : l.getD k 0 ≤ l.getD j 0 := by
  rcases Nat.eq_or_lt_of_le hkj with rfl | hlt
  · exact le_refl _
  · have hp := List.chain'_iff_pairwise.mp hl
    have hg := List.pairwise_iff_getElem.mp hp k j (Nat.lt_trans hlt hj) hj hlt
    rw [getD_eq_getElem_int l k (Nat.lt_trans hlt hj), getD_eq_getElem_int l j hj]
    exact le_of_lt hg

theorem getD_drop_one (l : List Int) (k : Nat) :
    (l.drop 1).getD k 0 = l.getD (k + 1) 0 := by
  cases l <;> simp

/-- Boolean strict-ascending check for a concrete table. -/
def chainLt : List Int → Bool
  | [] => true
  | [_] => true
  | x :: y :: xs => x < y && chainLt (y :: xs)

theorem chainLt_iff : ∀ l : List Int, chainLt l = true ↔ l.Chain' (· < ·)
  | [] => by simp [chainLt]
  | [_] => by simp [chainLt]
  | x :: y :: xs => by
    simp [chainLt, List.chain'_cons, chainLt_iff (y :: xs), and_comm]

theorem voltage_map_chain :
    ab8500_charger_voltage_map.Chain' (· < ·) :=
  (chainLt_iff _).mp (by decide)

theorem current_map_chain :
    ab8500_charger_current_map.Chain' (· < ·) :=
  (chainLt_iff _).mp (by decide)

theorem vbus_map_chain :
    ab8500_charger_vbus_in_curr_map.Chain' (· < ·) :=
  (chainLt_iff _).mp (by decide)

/-! ### Characterisation of the encoders between table entries -/

theorem current_to_regval_between (i : Nat) (v : Int)
    (h : i + 1 < ab8500_charger_current_map.length)
    (h1 : ab8500_charger_current_map.getD i 0 < v)
    (h2 : v < ab8500_charger_current_map.getD (i + 1) 0) :
    ab8500_current_to_regval v = (i : Int) := by
  have hi : i < ab8500_charger_current_map.length := Nat.lt_of_succ_lt h
  have h0 : ab8500_charger_current_map.getD 0 0 ≤
      ab8500_charger_current_map.getD i 0 :=
    chain_getD_le _ current_map_chain (Nat.zero_le i) hi
  have hnot : ¬ v < ab8500_charger_current_map.getD 0 0 :=
    not_lt.mpr (le_trans h0 (le_of_lt h1))
  have hscan : scanLoop v ab8500_charger_current_map 0 = some (0 + (i + 1)) := by
    refine scanLoop_first v _ 0 (i + 1) h ?_ h2
    intro k hk
    exact le_trans
      (chain_getD_le _ current_map_chain (Nat.le_of_lt_succ hk) hi)
      (le_of_lt h1)
  rw [ab8500_current_to_regval, if_neg hnot, hscan]
  push_cast
  ring

theorem vbus_to_regval_between (i : Nat) (v : Int)
    (h : i + 1 < ab8500_charger_vbus_in_curr_map.length)
    (h1 : ab8500_charger_vbus_in_curr_map.getD i 0 < v)
    (h2 : v < ab8500_charger_vbus_in_curr_map.getD (i + 1) 0) :
    ab8500_vbus_in_curr_to_regval v = (i : Int) := by
  have hi : i < ab8500_charger_vbus_in_curr_map.length := Nat.lt_of_succ_lt h
  have h0 : ab8500_charger_vbus_in_curr_map.getD 0 0 ≤
      ab8500_charger_vbus_in_curr_map.getD i 0 :=
    chain_getD_le _ vbus_map_chain (Nat.zero_le i) hi
  have hnot : ¬ v < ab8500_charger_vbus_in_curr_map.getD 0 0 :=
    not_lt.mpr (le_trans h0 (le_of_lt h1))
  have hscan : scanLoop v ab8500_charger_vbus_in_curr_map 0 =
      some (0 + (i + 1)) := by
    refine scanLoop_first v _ 0 (i + 1) h ?_ h2
    intro k hk
    exact le_trans
      (chain_getD_le _ vbus_map_chain (Nat.le_of_lt_succ hk) hi)
      (le_of_lt h1)
  rw [ab8500_vbus_in_curr_to_regval, if_neg hnot, hscan]
  push_cast
  ring

theorem voltage_to_regval_between (i : Nat) (v : Int)
    (h : i + 1 < ab8500_charger_voltage_map.length)
    (h1 : ab8500_charger_voltage_map.getD i 0 < v)
    (h2 : v < ab8500_charger_voltage_map.getD (i + 1) 0) :
    ab8500_voltage_to_regval v = (i : Int) := by
  have hi : i < ab8500_charger_voltage_map.length := Nat.lt_of_succ_lt h
  have h0 : ab8500_charger_voltage_map.getD 0 0 ≤
      ab8500_charger_voltage_map.getD i 0 :=
    chain_getD_le _ voltage_map_chain (Nat.zero_le i) hi
  have hnot : ¬ v < ab8500_charger_voltage_map.getD 0 0 :=
    not_lt.mpr (le_trans h0 (le_of_lt h1))
  have hlen : ab8500_charger_voltage_map.length =
      (ab8500_charger_voltage_map.drop 1).length + 1 := by decide
  have hscan : scanLoop v (ab8500_charger_voltage_map.drop 1) 1 =
      some (1 + i) := by
    refine scanLoop_first v _ 1 i (by omega) ?_ ?_
    · intro k hk
      rw [getD_drop_one]
      exact le_trans
        (chain_getD_le _ voltage_map_chain (Nat.succ_le_of_lt hk) hi)
        (le_of_lt h1)
    · rw [getD_drop_one]
      exact h2
  rw [ab8500_voltage_to_regval, if_neg hnot, hscan]
  push_cast
  ring

/-! ### Rejection above the top entry -/

theorem current_to_regval_above (v : Int)
    (h : ab8500_charger_current_map.getD
        (ab8500_charger_current_map.length - 1) 0 < v) :
    ab8500_current_to_regval v = -1 := by
  have hnot : ¬ v < ab8500_charger_current_map.getD 0 0 := by
    have := chain_getD_le _ current_map_chain
      (Nat.zero_le (ab8500_charger_current_map.length - 1)) (by decide)
    omega
  have hscan : scanLoop v ab8500_charger_current_map 0 = none := by
    refine scanLoop_none v _ 0 ?_
    intro k hk
    exact le_trans
      (chain_getD_le _ current_map_chain (by omega) (by decide))
      (le_of_lt h)
  rw [ab8500_current_to_regval, if_neg hnot, hscan]
  simp only []
  rw [if_neg (by omega)]

theorem vbus_to_regval_above (v : Int)
    (h : ab8500_charger_vbus_in_curr_map.getD
        (ab8500_charger_vbus_in_curr_map.length - 1) 0 < v) :
    ab8500_vbus_in_curr_to_regval v = -1 := by
  have hnot : ¬ v < ab8500_charger_vbus_in_curr_map.getD 0 0 := by
    have := chain_getD_le _ vbus_map_chain
      (Nat.zero_le (ab8500_charger_vbus_in_curr_map.length - 1)) (by decide)
    omega
  have hscan : scanLoop v ab8500_charger_vbus_in_curr_map 0 = none := by
    refine scanLoop_none v _ 0 ?_
    intro k hk
    exact le_trans
      (chain_getD_le _ vbus_map_chain (by omega) (by decide))
      (le_of_lt h)
  rw [ab8500_vbus_in_curr_to_regval, if_neg hnot, hscan]
  simp only []
  rw [if_neg (by omega)]

theorem voltage_to_regval_above (v : Int)
    (h : ab8500_charger_voltage_map.getD
        (ab8500_charger_voltage_map.length - 1) 0 < v) :
    ab8500_voltage_to_regval v = -1 := by
  have hnot : ¬ v < ab8500_charger_voltage_map.getD 0 0 := by
    have := chain_getD_le _ voltage_map_chain
      (Nat.zero_le (ab8500_charger_voltage_map.length - 1)) (by decide)
    omega
  have hscan : scanLoop v (ab8500_charger_voltage_map.drop 1) 1 = none := by
    refine scanLoop_none v _ 1 ?_
    intro k hk
    rw [getD_drop_one]
    refine le_trans (chain_getD_le _ voltage_map_chain (j :=
      ab8500_charger_voltage_map.length - 1) ?_ (by decide)) (le_of_lt h)
    have : (ab8500_charger_voltage_map.drop 1).length =
        ab8500_charger_voltage_map.length - 1 := by decide
    omega
  rw [ab8500_voltage_to_regval, if_neg hnot, hscan]
  simp only []
  rw [if_neg (by omega)]

/-! ### Floor below the minimum entry -/

theorem current_to_regval_below (v : Int)
    (h : v < ab8500_charger_current_map.getD 0 0) :
    ab8500_current_to_regval v = 0 := by
  rw [ab8500_current_to_regval, if_pos h]

theorem vbus_to_regval_below (v : Int)
    (h : v < ab8500_charger_vbus_in_curr_map.getD 0 0) :
    ab8500_vbus_in_curr_to_regval v = 0 := by
  rw [ab8500_vbus_in_curr_to_regval, if_pos h]

set_option maxRecDepth 4000 in
/-- C2: every exact table entry round-trips through its encoder; every value
strictly between two adjacent entries encodes to the index of the nearest
entry below it (never rounding up); values below the lowest entry of the two
current tables encode to the lowest code 0; values strictly above the top
entry of any of the three tables are rejected with a negative result (-1). -/
theorem C2_encode_decode_tables :
    ((∀ v ∈ ab8500_charger_current_map,
        ab8500_charger_current_map.getD
          (ab8500_current_to_regval v).toNat 0 = v) ∧
     (∀ v ∈ ab8500_charger_vbus_in_curr_map,
        ab8500_charger_vbus_in_curr_map.getD
          (ab8500_vbus_in_curr_to_regval v).toNat 0 = v) ∧
     (∀ v ∈ ab8500_charger_voltage_map,
        ab8500_charger_voltage_map.getD
          (ab8500_voltage_to_regval v).toNat 0 = v)) ∧
    ((∀ (i : Nat) (v : Int), i + 1 < ab8500_charger_current_map.length →
        ab8500_charger_current_map.getD i 0 < v →
        v < ab8500_charger_current_map.getD (i + 1) 0 →
        ab8500_current_to_regval v = (i : Int)) ∧
     (∀ (i : Nat) (v : Int), i + 1 < ab8500_charger_vbus_in_curr_map.length →
        ab8500_charger_vbus_in_curr_map.getD i 0 < v →
        v < ab8500_charger_vbus_in_curr_map.getD (i + 1) 0 →
        ab8500_vbus_in_curr_to_regval v = (i : Int)) ∧
     (∀ (i : Nat) (v : Int), i + 1 < ab8500_charger_voltage_map.length →
        ab8500_charger_voltage_map.getD i 0 < v →
        v < ab8500_charger_voltage_map.getD (i + 1) 0 →
        ab8500_voltage_to_regval v = (i : Int))) ∧
    ((∀ v : Int, v < ab8500_charger_current_map.getD 0 0 →
        ab8500_current_to_regval v = 0) ∧
     (∀ v : Int, v < ab8500_charger_vbus_in_curr_map.getD 0 0 →
        ab8500_vbus_in_curr_to_regval v = 0)) ∧
    ((∀ v : Int, ab8500_charger_current_map.getD
        (ab8500_charger_current_map.length - 1) 0 < v →
        ab8500_current_to_regval v = -1) ∧
     (∀ v : Int, ab8500_charger_vbus_in_curr_map.getD
        (ab8500_charger_vbus_in_curr_map.length - 1) 0 < v →
        ab8500_vbus_in_curr_to_regval v = -1) ∧
     (∀ v : Int, ab8500_charger_voltage_map.getD
        (ab8500_charger_voltage_map.length - 1) 0 < v →
        ab8500_voltage_to_regval v = -1)) :=
  ⟨⟨by decide, by decide, by decide⟩,
   ⟨current_to_regval_between, vbus_to_regval_between, voltage_to_regval_between⟩,
   ⟨current_to_regval_below, vbus_to_regval_below⟩,
   ⟨current_to_regval_above, vbus_to_regval_above, voltage_to_regval_above⟩⟩

/-- Witness for C2: the encoders evaluated at concrete inputs through the
theorem (250 mA lies strictly between entries 200 and 300 of the output
current table and encodes to code 1; 40 mA is below the lowest VBUS entry
and floors to code 0; 5000 mV is above the top voltage entry and is
rejected). -/
theorem C2_encode_decode_tables_witness :
    (1 + 1 < ab8500_charger_current_map.length ∧
     ab8500_charger_current_map.getD 1 0 < 250 ∧
     (250 : Int) < ab8500_charger_current_map.getD 2 0 ∧
     ab8500_current_to_regval 250 = 1) ∧
    ((40 : Int) < ab8500_charger_vbus_in_curr_map.getD 0 0 ∧
     ab8500_vbus_in_curr_to_regval 40 = 0) ∧
    (ab8500_charger_voltage_map.getD
        (ab8500_charger_voltage_map.length - 1) 0 < 5000 ∧
     ab8500_voltage_to_regval 5000 = -1) :=
  ⟨⟨by decide, by decide, by decide,
    C2_encode_decode_tables.2.1.1 1 250 (by decide) (by decide) (by decide)⟩,
   ⟨by decide, C2_encode_decode_tables.2.2.1.2 40 (by decide)⟩,
   ⟨by decide, C2_encode_decode_tables.2.2.2.2.2 5000 (by decide)⟩⟩

/-! ## Current stepping engine (`ab8500_charger_set_current`, lines 1083-1217)

The call is modelled as a pure function of the values the hardware
returns for its two register reads, of the connection state, and of a
sampling oracle `cont` for the continue-stepping predicate: `cont k` is
the value `ab8500_charger_check_continue_stepping` returns when it is
consulted right after the `k`-th write of the up-stepping loop (the
flag it reads, `flags.vbus_drop_end`, can change between iterations).
Register writes are modelled as succeeding; the result records the
returned error code and the byte values written to the selected
register, in order. -/

/-- Result of one `ab8500_charger_set_current` call. -/
structure SetCurrentResult where
  ret : Int
  writes : List Nat
deriving Repr, DecidableEq

/-- Environment of one call: the byte read from the selected register, the
byte read from `AB8500_CH_USBCH_STAT2_REG` (consulted for the VBUS input
register only), and the two connection flags. -/
structure SetCurrentEnv where
  regVal : Nat
  autoVal : Nat
  acConnected : Bool
  usbConnected : Bool
deriving Repr, DecidableEq

/-- The byte written for code `i`: `(u8) i << shift_value` truncated to the
register width. -/
def regByte (shift i : Nat) : Nat :=
  i % 256 * 2 ^ shift % 256

/-- `ab8500_charger_check_continue_stepping` (lines 1054-1068) as a function
of the current value of `flags.vbus_drop_end`. -/
def ab8500_charger_check_continue_stepping (vbusDropEnd : Bool) (reg : Nat) :
    Bool :=
  if reg = AB8500_USBCH_IPT_CRNTLVL_REG then !vbusDropEnd else true

/-- The up-stepping loop (lines 1193-1209): writes codes `i, i + 1, ...`
toward the target while the continue-stepping predicate, sampled after every
write, allows it.  `fuel` is the number of codes from `i` up to the target
inclusive, `k` counts the samples taken so far. -/
def upSteps (cont : Nat → Bool) : Nat → Nat → Nat → List Nat
  | 0, _, _ => []
  | fuel + 1, i, k =>
    i :: (if cont k then upSteps cont fuel (i + 1) (k + 1) else [])

/-- The down-stepping loop (lines 1180-1192): writes codes
`prev - 1, prev - 2, ..., target` unconditionally. -/
def downSteps (prev target : Nat) : List Nat :=
  (List.range (prev - target)).map (fun j => prev - 1 - j)

/-- Common tail of `ab8500_charger_set_current` after the per-register
`switch` has produced the shift, the effective previous index, the looked-up
target index and the `no_stepping` flag (lines 1158-1209). -/
def setCurrentCore (cont : Nat → Bool) (shift prev : Nat) (currIndex : Int)
    (noStepping : Bool) : SetCurrentResult :=
  if currIndex < 0 then
    ⟨- ENXIO, []⟩
  else if (prev : Int) = currIndex then
    ⟨0, []⟩
  else if noStepping then
    ⟨0, [regByte shift currIndex.toNat]⟩
  else if currIndex.toNat < prev then
    ⟨0, (downSteps prev currIndex.toNat).map (regByte shift)⟩
  else
    ⟨0, (upSteps cont (currIndex.toNat - prev) (prev + 1) 0).map (regByte shift)⟩

/-- `ab8500_charger_set_current` (lines 1083-1217). -/
def ab8500_charger_set_current (env : SetCurrentEnv) (cont : Nat → Bool)
    (ich : Int) (reg : Nat) : SetCurrentResult :=
  if reg = AB8500_MCH_IPT_CURLVL_REG then
    setCurrentCore cont MAIN_CH_INPUT_CURR_SHIFT
      (env.regVal >>> MAIN_CH_INPUT_CURR_SHIFT)
      (ab8500_current_to_regval ich) (!env.acConnected)
  else if reg = AB8500_USBCH_IPT_CRNTLVL_REG then
    setCurrentCore cont VBUS_IN_CURR_LIM_SHIFT
      (min (env.regVal >>> VBUS_IN_CURR_LIM_SHIFT)
        (env.autoVal >>> AUTO_VBUS_IN_CURR_LIM_SHIFT))
      (ab8500_vbus_in_curr_to_regval ich) (!env.usbConnected)
  else if reg = AB8500_CH_OPT_CRNTLVL_REG then
    setCurrentCore cont 0 env.regVal
      (ab8500_current_to_regval ich)
      (!(env.usbConnected || env.acConnected))
  else
    ⟨- ENXIO, []⟩

/-- The effective previous code of a call: the register read shifted down,
additionally clamped by the hardware auto-limit for the VBUS input register
(lines 1104-1136). -/
def effectivePrev (env : SetCurrentEnv) (reg : Nat) : Nat :=
  if reg = AB8500_MCH_IPT_CURLVL_REG then
    env.regVal >>> MAIN_CH_INPUT_CURR_SHIFT
  else if reg = AB8500_USBCH_IPT_CRNTLVL_REG then
    min (env.regVal >>> VBUS_IN_CURR_LIM_SHIFT)
      (env.autoVal >>> AUTO_VBUS_IN_CURR_LIM_SHIFT)
  else
    env.regVal

/-- The target code lookup a call performs for its register. -/
def targetIndex (ich : Int) (reg : Nat) : Int :=
  if reg = AB8500_USBCH_IPT_CRNTLVL_REG then
    ab8500_vbus_in_curr_to_regval ich
  else
    ab8500_current_to_regval ich

/-- The per-register shift applied to the code before writing. -/
def shiftFor (reg : Nat) : Nat :=
  if reg = AB8500_CH_OPT_CRNTLVL_REG then 0 else 4

/-- Whether the charger relevant to the register is connected
(lines 1109-1110, 1134-1135, 1148-1149; when it is not, the target code is
written in a single step). -/
def chargerConnectedFor (env : SetCurrentEnv) (reg : Nat) : Bool :=
  if reg = AB8500_MCH_IPT_CURLVL_REG then
    env.acConnected
  else if reg = AB8500_USBCH_IPT_CRNTLVL_REG then
    env.usbConnected
  else
    env.usbConnected || env.acConnected

/-! ### Facts about the stepping loops -/

theorem cons_range_map (i n : Nat) :
    i :: (List.range n).map (fun j => i + 1 + j) =
      (List.range (n + 1)).map (fun j => i + j) := by
  rw [List.range_succ_eq_map, List.map_cons, List.map_map]
  refine congrArg₂ _ (by omega) ?_
  exact (List.map_congr_left fun a _ => by simp [Function.comp]; omega).symm

theorem upSteps_all_true (cont : Nat → Bool) (hcont : ∀ j, cont j = true) :
    ∀ (fuel i k : Nat),
      upSteps cont fuel i k = (List.range fuel).map (fun j => i + j) := by
  intro fuel
  induction fuel with
  | zero => intro i k; simp [upSteps]
  | succ f ih =>
    intro i k
    rw [upSteps, hcont k, if_pos rfl, ih (i + 1) (k + 1), cons_range_map]

theorem upSteps_early (cont : Nat → Bool) :
    ∀ (k fuel i s : Nat), (∀ j, j < k → cont (s + j) = true) →
      cont (s + k) = false → k + 1 ≤ fuel →
      upSteps cont fuel i s = (List.range (k + 1)).map (fun j => i + j) := by
  intro k
  induction k with
  | zero =>
    intro fuel i s _ hfalse hf
    obtain ⟨f, rfl⟩ : ∃ f, fuel = f + 1 := ⟨fuel - 1, by omega⟩
    have h0 : cont s = false := by simpa using hfalse
    rw [upSteps, h0]
    simp [List.range_succ]
  | succ k' ih =>
    intro fuel i s htrue hfalse hf
    obtain ⟨f, rfl⟩ : ∃ f, fuel = f + 1 := ⟨fuel - 1, by omega⟩
    have h0 : cont s = true := by simpa using htrue 0 (Nat.succ_pos k')
    have hrec := ih f (i + 1) (s + 1)
      (fun j hj => by
        have := htrue (j + 1) (by omega)
        have harr : s + 1 + j = s + (j + 1) := by omega
        rw [harr]
        exact this)
      (by
        have : s + 1 + k' = s + (k' + 1) := by omega
        rw [this]; exact hfalse)
      (by omega)
    rw [upSteps, h0, if_pos rfl, hrec, cons_range_map]

theorem setCurrentCore_down (cont : Nat → Bool) (shift prev : Nat)
    (curr : Int) (h0 : 0 ≤ curr) (hlt : curr.toNat < prev) :
    setCurrentCore cont shift prev curr false =
      ⟨0, (downSteps prev curr.toNat).map (regByte shift)⟩ := by
  have h1 : ¬ curr < 0 := not_lt.mpr h0
  have h2 : ¬ (prev : Int) = curr := by omega
  rw [setCurrentCore, if_neg h1, if_neg h2, if_neg (Bool.false_ne_true),
    if_pos hlt]

theorem setCurrentCore_up (cont : Nat → Bool) (shift prev : Nat)
    (curr : Int) (h0 : 0 ≤ curr) (hgt : prev < curr.toNat) :
    setCurrentCore cont shift prev curr false =
      ⟨0, (upSteps cont (curr.toNat - prev) (prev + 1) 0).map
        (regByte shift)⟩ := by
  have h1 : ¬ curr < 0 := not_lt.mpr h0
  have h2 : ¬ (prev : Int) = curr := by omega
  rw [setCurrentCore, if_neg h1, if_neg h2, if_neg (Bool.false_ne_true),
    if_neg (by omega)]

theorem setCurrentCore_trace (cont : Nat → Bool) (shift A : Nat) (curr : Int)
    (h0 : 0 ≤ curr) :
    (curr.toNat < A →
      setCurrentCore cont shift A curr false =
        ⟨0, (List.range (A - curr.toNat)).map
          (fun j => regByte shift (A - 1 - j))⟩) ∧
    (A < curr.toNat → (∀ k, cont k = true) →
      setCurrentCore cont shift A curr false =
        ⟨0, (List.range (curr.toNat - A)).map
          (fun j => regByte shift (A + 1 + j))⟩) ∧
    (A < curr.toNat → ∀ k, (∀ j, j < k → cont j = true) → cont k = false →
      k + 1 < curr.toNat - A →
      setCurrentCore cont shift A curr false =
        ⟨0, (List.range (k + 1)).map
          (fun j => regByte shift (A + 1 + j))⟩) := by
  refine ⟨?_, ?_, ?_⟩
  · intro hlt
    rw [setCurrentCore_down cont shift A curr h0 hlt]
    simp [downSteps, List.map_map, Function.comp]
  · intro hgt hcont
    rw [setCurrentCore_up cont shift A curr h0 hgt,
      upSteps_all_true cont hcont]
    simp [List.map_map, Function.comp]
  · intro hgt k htrue hfalse hk
    rw [setCurrentCore_up cont shift A curr h0 hgt,
      upSteps_early cont k (curr.toNat - A) (A + 1) 0
        (fun j hj => by simpa using htrue j hj)
        (by simpa using hfalse) (by omega)]
    simp [List.map_map, Function.comp]

/-- C1: for a valid current register, an encodable target code `B`, an
effective hardware-read previous code `A ≠ B` and the corresponding charger
connected, the stepping engine writes every code between `A` and `B` in
strictly monotonic order toward `B` (exactly `|B - A|` writes) when the
continue-stepping predicate stays true; when the predicate turns false
during an upward ramp, the loop stops early with the register strictly
below `B` and the call still returns 0. -/
theorem C1_stepping_traverses_all_codes
    (env : SetCurrentEnv) (cont : Nat → Bool) (ich : Int) (reg : Nat)
    (hreg : reg = AB8500_MCH_IPT_CURLVL_REG ∨
      reg = AB8500_USBCH_IPT_CRNTLVL_REG ∨ reg = AB8500_CH_OPT_CRNTLVL_REG)
    (henc : 0 ≤ targetIndex ich reg)
    (hne : (effectivePrev env reg : Int) ≠ targetIndex ich reg)
    (hconn : chargerConnectedFor env reg = true) :
    ((targetIndex ich reg).toNat < effectivePrev env reg →
      (ab8500_charger_set_current env cont ich reg).ret = 0 ∧
      (ab8500_charger_set_current env cont ich reg).writes =
        (List.range (effectivePrev env reg - (targetIndex ich reg).toNat)).map
          (fun j => regByte (shiftFor reg) (effectivePrev env reg - 1 - j)) ∧
      (ab8500_charger_set_current env cont ich reg).writes.length =
        effectivePrev env reg - (targetIndex ich reg).toNat) ∧
    (effectivePrev env reg < (targetIndex ich reg).toNat →
      (∀ k, cont k = true) →
      (ab8500_charger_set_current env cont ich reg).ret = 0 ∧
      (ab8500_charger_set_current env cont ich reg).writes =
        (List.range ((targetIndex ich reg).toNat - effectivePrev env reg)).map
          (fun j => regByte (shiftFor reg) (effectivePrev env reg + 1 + j)) ∧
      (ab8500_charger_set_current env cont ich reg).writes.length =
        (targetIndex ich reg).toNat - effectivePrev env reg) ∧
    (effectivePrev env reg < (targetIndex ich reg).toNat →
      ∀ k, (∀ j, j < k → cont j = true) → cont k = false →
      k + 1 < (targetIndex ich reg).toNat - effectivePrev env reg →
      (ab8500_charger_set_current env cont ich reg).ret = 0 ∧
      (ab8500_charger_set_current env cont ich reg).writes =
        (List.range (k + 1)).map
          (fun j => regByte (shiftFor reg) (effectivePrev env reg + 1 + j)) ∧
      effectivePrev env reg + 1 + k < (targetIndex ich reg).toNat) := by
  rcases hreg with rfl | rfl | rfl
  · have hA : effectivePrev env AB8500_MCH_IPT_CURLVL_REG =
        env.regVal >>> MAIN_CH_INPUT_CURR_SHIFT := by
      rw [effectivePrev, if_pos rfl]
    have hT : targetIndex ich AB8500_MCH_IPT_CURLVL_REG =
        ab8500_current_to_regval ich := by
      rw [targetIndex, if_neg (by decide)]
    have hS : shiftFor AB8500_MCH_IPT_CURLVL_REG = MAIN_CH_INPUT_CURR_SHIFT :=
      by decide
    have hconn' : env.acConnected = true := by
      rw [chargerConnectedFor, if_pos rfl] at hconn
      exact hconn
    have hcore : ab8500_charger_set_current env cont ich
        AB8500_MCH_IPT_CURLVL_REG =
        setCurrentCore cont MAIN_CH_INPUT_CURR_SHIFT
          (env.regVal >>> MAIN_CH_INPUT_CURR_SHIFT)
          (ab8500_current_to_regval ich) false := by
      rw [ab8500_charger_set_current, if_pos rfl, hconn', Bool.not_true]
    rw [hT] at henc
    obtain ⟨hd, hu, he⟩ := setCurrentCore_trace cont MAIN_CH_INPUT_CURR_SHIFT
      (env.regVal >>> MAIN_CH_INPUT_CURR_SHIFT)
      (ab8500_current_to_regval ich) henc
    rw [hA, hT, hS, hcore]
    exact ⟨fun h => by rw [hd h]; exact ⟨rfl, rfl, by simp⟩,
      fun h hc => by rw [hu h hc]; exact ⟨rfl, rfl, by simp⟩,
      fun h k h1 h2 h3 => by rw [he h k h1 h2 h3]
                             exact ⟨rfl, rfl, by omega⟩⟩
  · have hA : effectivePrev env AB8500_USBCH_IPT_CRNTLVL_REG =
        min (env.regVal >>> VBUS_IN_CURR_LIM_SHIFT)
          (env.autoVal >>> AUTO_VBUS_IN_CURR_LIM_SHIFT) := by
      rw [effectivePrev, if_neg (by decide), if_pos rfl]
    have hT : targetIndex ich AB8500_USBCH_IPT_CRNTLVL_REG =
        ab8500_vbus_in_curr_to_regval ich := by
      rw [targetIndex, if_pos rfl]
    have hS : shiftFor AB8500_USBCH_IPT_CRNTLVL_REG = VBUS_IN_CURR_LIM_SHIFT :=
      by decide
    have hconn' : env.usbConnected = true := by
      rw [chargerConnectedFor, if_neg (by decide), if_pos rfl] at hconn
      exact hconn
    have hcore : ab8500_charger_set_current env cont ich
        AB8500_USBCH_IPT_CRNTLVL_REG =
        setCurrentCore cont VBUS_IN_CURR_LIM_SHIFT
          (min (env.regVal >>> VBUS_IN_CURR_LIM_SHIFT)
            (env.autoVal >>> AUTO_VBUS_IN_CURR_LIM_SHIFT))
          (ab8500_vbus_in_curr_to_regval ich) false := by
      rw [ab8500_charger_set_current, if_neg (by decide), if_pos rfl, hconn',
        Bool.not_true]
    rw [hT] at henc
    obtain ⟨hd, hu, he⟩ := setCurrentCore_trace cont VBUS_IN_CURR_LIM_SHIFT
      (min (env.regVal >>> VBUS_IN_CURR_LIM_SHIFT)
        (env.autoVal >>> AUTO_VBUS_IN_CURR_LIM_SHIFT))
      (ab8500_vbus_in_curr_to_regval ich) henc
    rw [hA, hT, hS, hcore]
    exact ⟨fun h => by rw [hd h]; exact ⟨rfl, rfl, by simp⟩,
      fun h hc => by rw [hu h hc]; exact ⟨rfl, rfl, by simp⟩,
      fun h k h1 h2 h3 => by rw [he h k h1 h2 h3]
                             exact ⟨rfl, rfl, by omega⟩⟩
  · have hA : effectivePrev env AB8500_CH_OPT_CRNTLVL_REG = env.regVal := by
      rw [effectivePrev, if_neg (by decide), if_neg (by decide)]
    have hT : targetIndex ich AB8500_CH_OPT_CRNTLVL_REG =
        ab8500_current_to_regval ich := by
      rw [targetIndex, if_neg (by decide)]
    have hS : shiftFor AB8500_CH_OPT_CRNTLVL_REG = 0 := by decide
    have hconn' : (env.usbConnected || env.acConnected) = true := by
      rw [chargerConnectedFor, if_neg (by decide), if_neg (by decide)] at hconn
      exact hconn
    have hcore : ab8500_charger_set_current env cont ich
        AB8500_CH_OPT_CRNTLVL_REG =
        setCurrentCore cont 0 env.regVal
          (ab8500_current_to_regval ich) false := by
      rw [ab8500_charger_set_current, if_neg (by decide), if_neg (by decide),
        if_pos rfl, hconn', Bool.not_true]
    rw [hT] at henc
    obtain ⟨hd, hu, he⟩ := setCurrentCore_trace cont 0 env.regVal
      (ab8500_current_to_regval ich) henc
    rw [hA, hT, hS, hcore]
    exact ⟨fun h => by rw [hd h]; exact ⟨rfl, rfl, by simp⟩,
      fun h hc => by rw [hu h hc]; exact ⟨rfl, rfl, by simp⟩,
      fun h k h1 h2 h3 => by rw [he h k h1 h2 h3]
                             exact ⟨rfl, rfl, by omega⟩⟩

/-- Witness for C1: stepping the VBUS input-current register from effective
code 1 (register byte 0x10, no auto-limit clamp) to target code 6 (500 mA)
with an always-true predicate writes the five bytes 0x20..0x60 and
returns 0. -/
theorem C1_stepping_traverses_all_codes_witness :
    ((0 : Int) ≤ targetIndex 500 AB8500_USBCH_IPT_CRNTLVL_REG ∧
     (effectivePrev ⟨0x10, 0xF0, false, true⟩ AB8500_USBCH_IPT_CRNTLVL_REG :
        Int) ≠ targetIndex 500 AB8500_USBCH_IPT_CRNTLVL_REG ∧
     chargerConnectedFor ⟨0x10, 0xF0, false, true⟩
        AB8500_USBCH_IPT_CRNTLVL_REG = true) ∧
    (ab8500_charger_set_current ⟨0x10, 0xF0, false, true⟩ (fun _ => true) 500
        AB8500_USBCH_IPT_CRNTLVL_REG).writes =
      [0x20, 0x30, 0x40, 0x50, 0x60] ∧
    (ab8500_charger_set_current ⟨0x10, 0xF0, false, true⟩ (fun _ => true) 500
        AB8500_USBCH_IPT_CRNTLVL_REG).ret = 0 := by
  have h := (C1_stepping_traverses_all_codes ⟨0x10, 0xF0, false, true⟩
    (fun _ => true) 500 AB8500_USBCH_IPT_CRNTLVL_REG
    (Or.inr (Or.inl rfl)) (by decide) (by decide) (by decide)).2.1
    (by decide) (fun k => rfl)
  refine ⟨⟨by decide, by decide, by decide⟩, ?_, h.1⟩
  rw [h.2.1]
  decide

/-- C8: an unsupported register id, or a current whose table lookup is
negative (unencodable), makes `ab8500_charger_set_current` return `- ENXIO`
with no register write performed. -/
theorem C8_invalid_register_or_range (env : SetCurrentEnv)
    (cont : Nat → Bool) (ich : Int) (reg : Nat) :
    (reg ≠ AB8500_MCH_IPT_CURLVL_REG → reg ≠ AB8500_USBCH_IPT_CRNTLVL_REG →
      reg ≠ AB8500_CH_OPT_CRNTLVL_REG →
      ab8500_charger_set_current env cont ich reg = ⟨- ENXIO, []⟩) ∧
    ((reg = AB8500_MCH_IPT_CURLVL_REG ∨ reg = AB8500_USBCH_IPT_CRNTLVL_REG ∨
        reg = AB8500_CH_OPT_CRNTLVL_REG) →
      targetIndex ich reg < 0 →
      ab8500_charger_set_current env cont ich reg = ⟨- ENXIO, []⟩) := by
  constructor
  · intro h1 h2 h3
    rw [ab8500_charger_set_current, if_neg h1, if_neg h2, if_neg h3]
  · intro hreg hneg
    rcases hreg with rfl | rfl | rfl
    · rw [targetIndex, if_neg (by decide)] at hneg
      rw [ab8500_charger_set_current, if_pos rfl, setCurrentCore,
        if_pos hneg]
    · rw [targetIndex, if_pos rfl] at hneg
      rw [ab8500_charger_set_current, if_neg (by decide), if_pos rfl,
        setCurrentCore, if_pos hneg]
    · rw [targetIndex, if_neg (by decide)] at hneg
      rw [ab8500_charger_set_current, if_neg (by decide), if_neg (by decide),
        if_pos rfl, setCurrentCore, if_pos hneg]

/-- Witness for C8: register id 0 is unsupported, and on the output-current
register a request of 2000 mA (above the 1500 mA top entry, not an exact
match) is rejected; both return `- ENXIO` without any write. -/
theorem C8_invalid_register_or_range_witness :
    ((0 : Nat) ≠ AB8500_MCH_IPT_CURLVL_REG ∧
     (0 : Nat) ≠ AB8500_USBCH_IPT_CRNTLVL_REG ∧
     (0 : Nat) ≠ AB8500_CH_OPT_CRNTLVL_REG ∧
     ab8500_charger_set_current ⟨0, 0, true, true⟩ (fun _ => true) 300 0 =
       ⟨- ENXIO, []⟩) ∧
    (targetIndex 2000 AB8500_CH_OPT_CRNTLVL_REG < 0 ∧
     ab8500_charger_set_current ⟨0, 0, true, true⟩ (fun _ => true) 2000
        AB8500_CH_OPT_CRNTLVL_REG = ⟨- ENXIO, []⟩) :=
  ⟨⟨by decide, by decide, by decide,
    (C8_invalid_register_or_range ⟨0, 0, true, true⟩ (fun _ => true) 300 0).1
      (by decide) (by decide) (by decide)⟩,
   ⟨by decide,
    (C8_invalid_register_or_range ⟨0, 0, true, true⟩ (fun _ => true) 2000
        AB8500_CH_OPT_CRNTLVL_REG).2
      (Or.inr (Or.inr rfl)) (by decide)⟩⟩

/-- C9 counterexample: on the output-current register at code 0 (100 mA),
`set_current(300 mA)` targets code 2 and performs writes `[1, 2]`: exactly
one intermediate write precedes the final write at the target code, not
two as the claim states. -/
theorem C9_counterexample_intermediate_writes :
    ab8500_current_to_regval 100 = 0 ∧
    ab8500_current_to_regval 300 = 2 ∧
    ab8500_charger_set_current ⟨0, 0, false, true⟩ (fun _ => true) 300
      AB8500_CH_OPT_CRNTLVL_REG = ⟨0, [1, 2]⟩ ∧
    (ab8500_charger_set_current ⟨0, 0, false, true⟩ (fun _ => true) 300
      AB8500_CH_OPT_CRNTLVL_REG).writes.dropLast.length = 1 ∧
    (1 : Nat) ≠ 2 := by
  refine ⟨by decide, by decide, by decide, by decide, by decide⟩

/-- C9 (amended): `set_current(300 mA)` on a register at 100 mA's code with
an always-true direction-up predicate performs exactly one intermediate
hardware write (code 1, 200 mA) before the final write at the target code 2,
i.e. two writes in total. -/
theorem C9_amended_one_intermediate_write :
    (ab8500_charger_set_current ⟨0, 0, false, true⟩ (fun _ => true) 300
      AB8500_CH_OPT_CRNTLVL_REG).writes = [1, 2] ∧
    (ab8500_charger_set_current ⟨0, 0, false, true⟩ (fun _ => true) 300
      AB8500_CH_OPT_CRNTLVL_REG).writes.dropLast.length = 1 ∧
    (ab8500_charger_set_current ⟨0, 0, false, true⟩ (fun _ => true) 300
      AB8500_CH_OPT_CRNTLVL_REG).writes.length = 2 ∧
    (ab8500_charger_set_current ⟨0, 0, false, true⟩ (fun _ => true) 300
      AB8500_CH_OPT_CRNTLVL_REG).ret = 0 := by
  refine ⟨by decide, by decide, by decide, by decide⟩

/-! ## VBUS drop / retry controller
(`ab8500_charger_vbus_drop_end_work`, lines 2027-2088)

The work function is modelled as a pure transition on the
`ab8500_vbus_drop` fields it updates, parameterised by whether the
`AB8500_CH_USBCH_STAT2_REG` read succeeds, the byte it returns, and the
USB connection flag.  The result also records the value of
`flags.vbus_drop_end` after the work and whether the work reached its
final `ab8500_charger_set_vbus_in_curr` call (the re-application of the
retry current). -/

/-- The fields of `struct ab8500_vbus_drop` the work updates:
`real_max_usb_in_curr[0]`, `real_max_usb_in_curr[1]`,
`retry_current_time`. -/
structure VbusDropState where
  realMax0 : Int
  realMax1 : Int
  retryTime : Nat
deriving Repr, DecidableEq

structure DropEndResult where
  state : VbusDropState
  vbusDropEnd : Bool
  retryApplied : Bool
deriving Repr, DecidableEq

/-- The auto-limit ceiling sampled from the status byte (lines 2048-2049). -/
def autoCeiling (stat2 : Nat) : Int :=
  ab8500_charger_vbus_in_curr_map.getD
    (stat2 >>> AUTO_VBUS_IN_CURR_LIM_SHIFT) 0

/-- Reinterpretation of a 32-bit unsigned value as the C signed `int` it
converts to (two's complement). -/
def toSigned32 (n : Nat) : Int :=
  if n < 2 ^ 31 then (n : Int) else (n : Int) - 2 ^ 32

/-- `ab8500_charger_vbus_drop_end_work` (lines 2027-2088).
`retry_current_time` is `unsigned int`, so `retry_current_time << 1` wraps
modulo 2^32; line 2065 stores that value into a signed `int new_time`, line
2066 compares `new_time > 3840` as a signed comparison, and line 2081 stores
`new_time` back into the unsigned field (conversion modulo 2^32). -/
def ab8500_charger_vbus_drop_end_work (s : VbusDropState) (readOk : Bool)
    (stat2 : Nat) (usbConnected : Bool) : DropEndResult :=
  if !readOk then
    ⟨s, false, usbConnected⟩
  else if s.realMax1 ≠ autoCeiling stat2 then
    ⟨{ s with
        realMax1 := autoCeiling stat2,
        retryTime := VBUS_IN_CURR_LIM_RETRY_SET_TIME }, false, usbConnected⟩
  else
    let newTimeBits := (s.retryTime <<< 1) % 2 ^ 32
    let newTime := toSigned32 newTimeBits
    if (VBUS_IN_CURR_LIM_RETRY_MAX_TIME : Int) < newTime then
      ⟨{ s with realMax0 := s.realMax1 }, false, false⟩
    else
      ⟨{ s with retryTime := newTimeBits }, false, usbConnected⟩

/-- `n` consecutive runs of the drop-end work, each with a successful
status read returning the same byte. -/
def iterateDropEnd (stat2 : Nat) (usb : Bool) :
    Nat → VbusDropState → VbusDropState
  | 0, s => s
  | n + 1, s =>
    (ab8500_charger_vbus_drop_end_work
      (iterateDropEnd stat2 usb n s) true stat2 usb).state

theorem dropEnd_changed (s : VbusDropState) (stat2 : Nat) (usb : Bool)
    (h : s.realMax1 ≠ autoCeiling stat2) :
    ab8500_charger_vbus_drop_end_work s true stat2 usb =
      ⟨{ s with
          realMax1 := autoCeiling stat2,
          retryTime := VBUS_IN_CURR_LIM_RETRY_SET_TIME }, false, usb⟩ := by
  rw [ab8500_charger_vbus_drop_end_work]
  simp [h]

theorem dropEnd_double (s : VbusDropState) (stat2 : Nat) (usb : Bool)
    (h : s.realMax1 = autoCeiling stat2)
    (hle : 2 * s.retryTime ≤ VBUS_IN_CURR_LIM_RETRY_MAX_TIME) :
    ab8500_charger_vbus_drop_end_work s true stat2 usb =
      ⟨{ s with retryTime := 2 * s.retryTime }, false, usb⟩ := by
  have hcap : VBUS_IN_CURR_LIM_RETRY_MAX_TIME = 3840 := rfl
  rw [ab8500_charger_vbus_drop_end_work]
  have hmod : (s.retryTime <<< 1) % 2 ^ 32 = 2 * s.retryTime := by
    rw [Nat.shiftLeft_eq, Nat.mod_eq_of_lt]
    · ring
    · omega
  have hsig : toSigned32 (2 * s.retryTime) = ((2 * s.retryTime : Nat) : Int) := by
    rw [toSigned32, if_pos (by omega)]
  rw [if_neg (by simp), if_neg (by simp [h]), hmod]
  simp only [hsig]
  rw [if_neg (by push_cast; omega)]

theorem dropEnd_freeze (s : VbusDropState) (stat2 : Nat) (usb : Bool)
    (h : s.realMax1 = autoCeiling stat2) (hwrap : s.retryTime < 2 ^ 30)
    (hgt : VBUS_IN_CURR_LIM_RETRY_MAX_TIME < 2 * s.retryTime) :
    ab8500_charger_vbus_drop_end_work s true stat2 usb =
      ⟨{ s with realMax0 := s.realMax1 }, false, false⟩ := by
  have hcap : VBUS_IN_CURR_LIM_RETRY_MAX_TIME = 3840 := rfl
  rw [ab8500_charger_vbus_drop_end_work]
  have hmod : (s.retryTime <<< 1) % 2 ^ 32 = 2 * s.retryTime := by
    rw [Nat.shiftLeft_eq]
    have h2 : s.retryTime * 2 ^ 1 = 2 * s.retryTime := by ring
    rw [h2, Nat.mod_eq_of_lt (by omega)]
  have hsig : toSigned32 (2 * s.retryTime) = ((2 * s.retryTime : Nat) : Int) := by
    rw [toSigned32, if_pos (by omega)]
  rw [if_neg (by simp), if_neg (by simp [h]), hmod]
  simp only [hsig]
  rw [if_pos (by push_cast; omega)]

theorem iterateDropEnd_le7 (m0 m1 : Int) (stat2 : Nat) (usb : Bool)
    (hc : m1 = autoCeiling stat2) :
    ∀ n, n ≤ 7 →
      iterateDropEnd stat2 usb n ⟨m0, m1, 30⟩ = ⟨m0, m1, 30 * 2 ^ n⟩ := by
  intro n
  induction n with
  | zero => intro _; simp [iterateDropEnd]
  | succ k ih =>
    intro hk
    have hpow : 2 ^ k ≤ 2 ^ 6 := Nat.pow_le_pow_right (by norm_num) (by omega)
    have h64 : (2 : Nat) ^ 6 = 64 := by norm_num
    rw [iterateDropEnd, ih (by omega),
      dropEnd_double ⟨m0, m1, 30 * 2 ^ k⟩ stat2 usb hc (by
        show 2 * (30 * 2 ^ k) ≤ VBUS_IN_CURR_LIM_RETRY_MAX_TIME
        have : VBUS_IN_CURR_LIM_RETRY_MAX_TIME = 3840 := rfl
        omega)]
    have harith : 2 * (30 * 2 ^ k) = 30 * 2 ^ (k + 1) := by ring
    simp [harith]

theorem iterateDropEnd_frozen (m0 m1 : Int) (stat2 : Nat) (usb : Bool)
    (hc : m1 = autoCeiling stat2) :
    ∀ n, 8 ≤ n →
      iterateDropEnd stat2 usb n ⟨m0, m1, 30⟩ = ⟨m1, m1, 3840⟩ := by
  intro n
  induction n with
  | zero => omega
  | succ k ih =>
    intro hk
    rcases Nat.lt_or_ge k 8 with hk8 | hk8
    · have hk7 : k = 7 := by omega
      subst hk7
      rw [iterateDropEnd, iterateDropEnd_le7 m0 m1 stat2 usb hc 7 (le_refl 7),
        dropEnd_freeze ⟨m0, m1, 30 * 2 ^ 7⟩ stat2 usb hc (by norm_num)
          (by norm_num [VBUS_IN_CURR_LIM_RETRY_MAX_TIME])]
      norm_num
    · rw [iterateDropEnd, ih hk8,
        dropEnd_freeze ⟨m1, m1, 3840⟩ stat2 usb hc (by norm_num)
        (by norm_num [VBUS_IN_CURR_LIM_RETRY_MAX_TIME])]

theorem dropEnd_no_apply_after (m0 m1 : Int) (stat2 : Nat) (usb : Bool)
    (hc : m1 = autoCeiling stat2) :
    ∀ n, 7 ≤ n →
      (ab8500_charger_vbus_drop_end_work
        (iterateDropEnd stat2 usb n ⟨m0, m1, 30⟩) true stat2 usb).retryApplied =
        false := by
  intro n hn
  rcases eq_or_lt_of_le hn with h7 | h8
  · rw [← h7, iterateDropEnd_le7 m0 m1 stat2 usb hc 7 (le_refl 7),
      dropEnd_freeze ⟨m0, m1, 30 * 2 ^ 7⟩ stat2 usb hc (by norm_num)
        (by norm_num [VBUS_IN_CURR_LIM_RETRY_MAX_TIME])]
  · rw [iterateDropEnd_frozen m0 m1 stat2 usb hc n (by omega),
      dropEnd_freeze ⟨m1, m1, 3840⟩ stat2 usb hc (by norm_num)
        (by norm_num [VBUS_IN_CURR_LIM_RETRY_MAX_TIME])]

/-- C3: in the drop-end work, a sampled auto-limit ceiling different from the
previous observation records the new ceiling and reseeds the backoff to 30 s;
an unchanged ceiling doubles the backoff while the doubled value stays within
the 3840 s cap, and once doubling would exceed the cap (as the signed `int`
comparison of line 2066 sees it, hence the `2 ^ 30` bound) the raw ceiling is
frozen to the last retried ceiling and the retry current is not applied.
Starting from the 30 s seed, identical consecutive observations yield
backoffs 30·2^n up to 3840 s, after which the state stays frozen and no
invocation applies a retry current any more. -/
theorem C3_vbus_drop_backoff :
    (∀ (s : VbusDropState) (stat2 : Nat) (usb : Bool),
      s.realMax1 ≠ autoCeiling stat2 →
      ab8500_charger_vbus_drop_end_work s true stat2 usb =
        ⟨{ s with
            realMax1 := autoCeiling stat2,
            retryTime := VBUS_IN_CURR_LIM_RETRY_SET_TIME }, false, usb⟩) ∧
    (∀ (s : VbusDropState) (stat2 : Nat) (usb : Bool),
      s.realMax1 = autoCeiling stat2 →
      2 * s.retryTime ≤ VBUS_IN_CURR_LIM_RETRY_MAX_TIME →
      ab8500_charger_vbus_drop_end_work s true stat2 usb =
        ⟨{ s with retryTime := 2 * s.retryTime }, false, usb⟩) ∧
    (∀ (s : VbusDropState) (stat2 : Nat) (usb : Bool),
      s.realMax1 = autoCeiling stat2 → s.retryTime < 2 ^ 30 →
      VBUS_IN_CURR_LIM_RETRY_MAX_TIME < 2 * s.retryTime →
      ab8500_charger_vbus_drop_end_work s true stat2 usb =
        ⟨{ s with realMax0 := s.realMax1 }, false, false⟩) ∧
    (∀ (m0 m1 : Int) (stat2 : Nat) (usb : Bool),
      m1 = autoCeiling stat2 →
      (∀ n, n ≤ 7 →
        iterateDropEnd stat2 usb n ⟨m0, m1, 30⟩ = ⟨m0, m1, 30 * 2 ^ n⟩) ∧
      (∀ n, 8 ≤ n →
        iterateDropEnd stat2 usb n ⟨m0, m1, 30⟩ = ⟨m1, m1, 3840⟩) ∧
      (∀ n, 7 ≤ n →
        (ab8500_charger_vbus_drop_end_work
          (iterateDropEnd stat2 usb n ⟨m0, m1, 30⟩) true stat2
          usb).retryApplied = false)) :=
  ⟨dropEnd_changed, dropEnd_double, dropEnd_freeze,
   fun m0 m1 stat2 usb hc =>
    ⟨iterateDropEnd_le7 m0 m1 stat2 usb hc,
     iterateDropEnd_frozen m0 m1 stat2 usb hc,
     dropEnd_no_apply_after m0 m1 stat2 usb hc⟩⟩

/-- Witness for C3: with previous ceiling 900 mA and status byte 0xA0 (whose
auto-limit field decodes to 900 mA), a backoff of 60 s doubles to 120 s; and
after 9 identical observations starting from the 30 s seed the state is
frozen at ceiling 900 with backoff capped at 3840 s. -/
theorem C3_vbus_drop_backoff_witness :
    ((⟨1500, 900, 60⟩ : VbusDropState).realMax1 = autoCeiling 0xA0 ∧
     2 * 60 ≤ VBUS_IN_CURR_LIM_RETRY_MAX_TIME) ∧
    ab8500_charger_vbus_drop_end_work ⟨1500, 900, 60⟩ true 0xA0 true =
      ⟨⟨1500, 900, 120⟩, false, true⟩ ∧
    iterateDropEnd 0xA0 true 9 ⟨1500, 900, 30⟩ = ⟨900, 900, 3840⟩ :=
  ⟨⟨by decide, by decide⟩,
   C3_vbus_drop_backoff.2.1 ⟨1500, 900, 60⟩ 0xA0 true (by decide) (by decide),
   (C3_vbus_drop_backoff.2.2.2 1500 900 0xA0 true (by decide)).2.1 9
     (by decide)⟩

/-! ## USB connection teardown
(`ab8500_charger_set_usb_connected`, lines 398-423)

The driver state touched by (or claimed to be touched by) the
connection-change path: the `usb.charger_connected` flag, the
`ab8500_vbus_drop` fields, the related event flags, the accessory
indicators and the `ab8500_charger_usb_state` double buffer.  At probe
the structure is zero-initialised except `usb_state.usb_current`, which
is set to -1 (line 2869). -/

structure UsbConnState where
  usbConnected : Bool
  realMax0 : Int
  realMax1 : Int
  retryTime : Nat
  vbusDropEnd : Bool
  isUsbHost : Bool
  isAcaRid : Int
  reportNoCharge : Bool
  usbCurrent : Int
  usbCurrentTmp : Int
  usbState : Nat
  usbStateTmp : Nat
deriving Repr, DecidableEq

/-- `ab8500_charger_set_usb_connected` (lines 398-423); the sysfs
notification it ends with carries no state. -/
def ab8500_charger_set_usb_connected (s : UsbConnState) (connected : Bool) :
    UsbConnState :=
  if connected ≠ s.usbConnected then
    let s1 := { s with usbConnected := connected }
    if !connected then
      { s1 with
          realMax0 := 0,
          realMax1 := 0,
          vbusDropEnd := false,
          retryTime := VBUS_IN_CURR_LIM_RETRY_SET_TIME,
          isUsbHost := false,
          isAcaRid := 0,
          reportNoCharge := false }
    else
      s1
  else
    s

/-- C4 counterexample: tearing down a connection whose USB-stack state
records 500 mA and a configured link leaves `usb_state.usb_current` at 500
and `usb_state.state` at its old value, not at the probe defaults (-1 and 0):
the UsbLinkState fields are not reset by the disconnect transition. -/
theorem C4_counterexample_usb_state_not_reset :
    (ab8500_charger_set_usb_connected
      ⟨true, 500, 500, 120, true, true, 0, false, 500, 500, 2, 2⟩
      false).usbCurrent = 500 ∧
    (ab8500_charger_set_usb_connected
      ⟨true, 500, 500, 120, true, true, 0, false, 500, 500, 2, 2⟩
      false).usbState = 2 ∧
    (500 : Int) ≠ -1 ∧ (500 : Int) ≠ 0 ∧ (2 : Nat) ≠ 0 := by
  refine ⟨by decide, by decide, by decide, by decide, by decide⟩

/-- C4 (amended): a true-to-false transition of the USB connection resets
the VbusDropState fields (`real_max_usb_in_curr[0]` and `[1]` to 0,
`retry_current_time` to its 30 s seed) and clears `vbus_drop_end`,
`is_usb_host`, `is_aca_rid` and `report_charger_no_charge`, while leaving
every `usb_state` (UsbLinkState) field unchanged. -/
theorem C4_amended_teardown_resets_vbus_drop_only (s : UsbConnState)
    (h : s.usbConnected = true) :
    ab8500_charger_set_usb_connected s false =
      { s with
          usbConnected := false,
          realMax0 := 0,
          realMax1 := 0,
          retryTime := VBUS_IN_CURR_LIM_RETRY_SET_TIME,
          vbusDropEnd := false,
          isUsbHost := false,
          isAcaRid := 0,
          reportNoCharge := false } := by
  rw [ab8500_charger_set_usb_connected, if_pos (by simp [h])]
  rfl

/-- Witness for C4 (amended): the teardown evaluated on a concrete connected
state. -/
theorem C4_amended_teardown_witness :
    (⟨true, 500, 900, 120, true, true, 1, true, 500, 500, 2, 2⟩ :
      UsbConnState).usbConnected = true ∧
    ab8500_charger_set_usb_connected
      ⟨true, 500, 900, 120, true, true, 1, true, 500, 500, 2, 2⟩ false =
      ⟨false, 0, 0, 30, false, false, 0, false, 500, 500, 2, 2⟩ :=
  ⟨by decide,
   C4_amended_teardown_resets_vbus_drop_only
     ⟨true, 500, 900, 120, true, true, 1, true, 500, 500, 2, 2⟩ (by decide)⟩

/-! ## USB classification (`ab8500_charger_max_usb_curr`, lines 566-727)

The classification is modelled as a pure function of the prior driver
state, the link status, the `usb_curr_max_nc` platform parameter and the
byte the charger-on status read (`@0x0B02`) returns in the RESERVED
recovery path.  The returned triple is the new state, the C return value
and the trace of abx500 register operations performed (the gpadc VBUS
voltage measurement of the RESERVED path is not an abx500 register
transaction and is not part of the register trace). -/

/-- `struct ab8500_charger_event_flags` (lines 168-178). -/
structure EventFlags where
  mainextchnotok : Bool
  main_thermal_prot : Bool
  usb_thermal_prot : Bool
  vbus_ovv : Bool
  usbchargernotok : Bool
  chgwdexp : Bool
  vbus_collapse : Bool
  vbus_drop_end : Bool
  report_charger_no_charge : Bool
deriving Repr, DecidableEq

/-- `enum ab8500_charger_link_status` (lines 97-114). -/
inductive ab8500_charger_link_status where
  | USB_STAT_NOT_CONFIGURED
  | USB_STAT_STD_HOST_NC
  | USB_STAT_STD_HOST_C_NS
  | USB_STAT_STD_HOST_C_S
  | USB_STAT_HOST_CHG_NM
  | USB_STAT_HOST_CHG_HS
  | USB_STAT_HOST_CHG_HS_CHIRP
  | USB_STAT_DEDICATED_CHG
  | USB_STAT_ACA_RID_A
  | USB_STAT_ACA_RID_B
  | USB_STAT_ACA_RID_C_NM
  | USB_STAT_ACA_RID_C_HS
  | USB_STAT_ACA_RID_C_HS_CHIRP
  | USB_STAT_HM_IDGND
  | USB_STAT_RESERVED
  | USB_STAT_NOT_VALID_LINK
deriving Repr, DecidableEq

/-- An abx500 register operation: read, write, or mask-and-set. -/
inductive RegOp where
  | rd (bank addr : Nat)
  | wr (bank addr val : Nat)
  | rmw (bank addr mask val : Nat)
deriving Repr, DecidableEq

/-- Driver state read or written by `ab8500_charger_max_usb_curr`. -/
structure ClassifyState where
  maxUsbInCurr : Int
  isUsbHost : Bool
  isAcaRid : Int
  flags : EventFlags
  realMax0 : Int
deriving Repr, DecidableEq

/-- The register-operation sequence of the RESERVED recovery path
(lines 653-681). -/
def reservedRecoveryTrace : List RegOp :=
  [RegOp.rd AB8500_SYS_CTRL2_BANK AB8500_MAIN_WDOG_CTRL_REG,
   RegOp.rmw AB8500_CHARGER_BANK AB8500_USBCH_CTRL1_REG 0x03 0x02,
   RegOp.wr AB8500_CHARGER_BANK AB8500_CHARGER_CTRL 0x01,
   RegOp.rmw AB8500_CHARGER_BANK AB8500_USBCH_CTRL1_REG 0x03 0x03,
   RegOp.rd AB8500_CHARGER_BANK AB8500_CH_STATUS2_REG]

/-- `ab8500_charger_max_usb_curr` (lines 566-727).  Every path falls out of
the `switch` to line 722, which copies `max_usb_in_curr` into
`real_max_usb_in_curr[0]`. -/
def ab8500_charger_max_usb_curr (s : ClassifyState)
    (link : ab8500_charger_link_status) (usbCurrMaxNc : Int)
    (statusVal : Nat) : ClassifyState × Int × List RegOp :=
  let result : ClassifyState × Int × List RegOp :=
    match link with
    | .USB_STAT_STD_HOST_NC | .USB_STAT_STD_HOST_C_NS
    | .USB_STAT_STD_HOST_C_S =>
      ({ s with
          maxUsbInCurr := USB_CH_IP_CUR_LVL_0P5,
          isUsbHost := true,
          isAcaRid := 0 }, 0, [])
    | .USB_STAT_HOST_CHG_HS_CHIRP =>
      ({ s with
          maxUsbInCurr := USB_CH_IP_CUR_LVL_0P5,
          isUsbHost := true,
          isAcaRid := 0 }, 0, [])
    | .USB_STAT_HOST_CHG_HS =>
      ({ s with
          maxUsbInCurr := USB_CH_IP_CUR_LVL_0P5,
          isUsbHost := true,
          isAcaRid := 0 }, 0, [])
    | .USB_STAT_ACA_RID_C_HS =>
      ({ s with
          maxUsbInCurr := USB_CH_IP_CUR_LVL_0P9,
          isUsbHost := false,
          isAcaRid := 0 }, 0, [])
    | .USB_STAT_ACA_RID_A =>
      ({ s with
          maxUsbInCurr := USB_CH_IP_CUR_LVL_0P5,
          isUsbHost := false,
          isAcaRid := 1 }, 0, [])
    | .USB_STAT_ACA_RID_B =>
      ({ s with
          maxUsbInCurr := USB_CH_IP_CUR_LVL_1P3,
          isUsbHost := false,
          isAcaRid := 1 }, 0, [])
    | .USB_STAT_HOST_CHG_NM =>
      ({ s with
          maxUsbInCurr := USB_CH_IP_CUR_LVL_0P5,
          isUsbHost := true,
          isAcaRid := 0 }, 0, [])
    | .USB_STAT_DEDICATED_CHG =>
      ({ s with
          maxUsbInCurr := USB_CH_IP_CUR_LVL_1P5,
          isUsbHost := false,
          isAcaRid := 0 }, 0, [])
    | .USB_STAT_ACA_RID_C_HS_CHIRP | .USB_STAT_ACA_RID_C_NM =>
      ({ s with
          maxUsbInCurr := USB_CH_IP_CUR_LVL_1P5,
          isUsbHost := false,
          isAcaRid := 1 }, 0, [])
    | .USB_STAT_RESERVED =>
      if statusVal &&& 0x04 ≠ 0 then
        ({ s with flags := { s.flags with vbus_collapse := false } },
          0, reservedRecoveryTrace)
      else
        ({ s with flags := { s.flags with vbus_collapse := true } },
          -EBUSY, reservedRecoveryTrace)
    | .USB_STAT_NOT_VALID_LINK | .USB_STAT_NOT_CONFIGURED =>
      if usbCurrMaxNc ≠ 0 then
        ({ s with maxUsbInCurr := usbCurrMaxNc }, 0, [])
      else
        ({ s with maxUsbInCurr := USB_CH_IP_CUR_LVL_0P05 }, - ENXIO, [])
    | .USB_STAT_HM_IDGND =>
      ({ s with maxUsbInCurr := USB_CH_IP_CUR_LVL_0P05 }, - ENXIO, [])
  ({ result.1 with realMax0 := result.1.maxUsbInCurr },
    result.2.1, result.2.2)

/-- C7: a RESERVED classification performs exactly the recovery sequence
(read the main watchdog control at 0x0201, force-disable the charge path at
0x0BC0, reset the drop counter at 0x0B56, force-re-enable the charge path,
poll the charger-on status at 0x0B02); if the polled byte has bit 0x04 set
the collapse flag is cleared and 0 is returned, otherwise the flag is set
and -EBUSY is returned. -/
theorem C7_reserved_recovery (s : ClassifyState) (nc : Int) (v : Nat) :
    (ab8500_charger_max_usb_curr s .USB_STAT_RESERVED nc v).2.2 =
      [RegOp.rd 0x02 0x01,
       RegOp.rmw 0x0B 0xC0 0x03 0x02,
       RegOp.wr 0x0B 0x56 0x01,
       RegOp.rmw 0x0B 0xC0 0x03 0x03,
       RegOp.rd 0x0B 0x02] ∧
    (if v &&& 0x04 ≠ 0 then
      (ab8500_charger_max_usb_curr s .USB_STAT_RESERVED nc
        v).1.flags.vbus_collapse = false ∧
      (ab8500_charger_max_usb_curr s .USB_STAT_RESERVED nc v).2.1 = 0
    else
      (ab8500_charger_max_usb_curr s .USB_STAT_RESERVED nc
        v).1.flags.vbus_collapse = true ∧
      (ab8500_charger_max_usb_curr s .USB_STAT_RESERVED nc v).2.1 =
        -EBUSY) := by
  by_cases h : v &&& 0x04 ≠ 0 <;>
    simp [ab8500_charger_max_usb_curr, reservedRecoveryTrace, h,
      AB8500_SYS_CTRL2_BANK, AB8500_MAIN_WDOG_CTRL_REG, AB8500_CHARGER_BANK,
      AB8500_USBCH_CTRL1_REG, AB8500_CHARGER_CTRL, AB8500_CH_STATUS2_REG]

/-- C5 counterexample: starting from a state with every event flag clear, a
RESERVED classification whose post-recovery status poll returns 0 (charger-on
bit clear) leaves `flags.vbus_collapse = true`: the classification logic
itself performs a false-to-true event-flag transition. -/
theorem C5_counterexample_classification_sets_flag :
    (⟨500, false, 0,
      ⟨false, false, false, false, false, false, false, false, false⟩, 500⟩ :
        ClassifyState).flags.vbus_collapse = false ∧
    (ab8500_charger_max_usb_curr
      ⟨500, false, 0,
        ⟨false, false, false, false, false, false, false, false, false⟩, 500⟩
      .USB_STAT_RESERVED 0 0).1.flags.vbus_collapse = true := by
  refine ⟨by decide, by decide⟩

theorem maxUsbCurr_flags_nonreserved (s : ClassifyState)
    (link : ab8500_charger_link_status) (nc : Int) (v : Nat)
    (h : link ≠ .USB_STAT_RESERVED) :
    (ab8500_charger_max_usb_curr s link nc v).1.flags = s.flags := by
  cases link <;>
    first
    | rfl
    | exact absurd rfl h
    | (by_cases hnc : nc ≠ 0 <;> simp [ab8500_charger_max_usb_curr, hnc])

theorem maxUsbCurr_flags_reserved (s : ClassifyState) (nc : Int) (v : Nat) :
    (ab8500_charger_max_usb_curr s .USB_STAT_RESERVED nc v).1.flags =
      { s.flags with vbus_collapse := decide (v &&& 0x04 = 0) } := by
  by_cases hv : v &&& 0x04 ≠ 0 <;>
    simp [ab8500_charger_max_usb_curr, hv] <;> omega

/-- C5 (amended): the USB classification logic changes no event flag other
than `vbus_collapse`: every non-RESERVED link status leaves the event flags
unchanged, and the RESERVED recovery path only rewrites `vbus_collapse`,
setting it exactly when the polled charger-on bit 0x04 is clear. -/
theorem C5_amended_classification_touches_only_vbus_collapse
    (s : ClassifyState) (link : ab8500_charger_link_status)
    (nc : Int) (v : Nat) :
    ((ab8500_charger_max_usb_curr s link nc v).1.flags =
      { s.flags with vbus_collapse :=
          (ab8500_charger_max_usb_curr s link nc v).1.flags.vbus_collapse }) ∧
    (link ≠ .USB_STAT_RESERVED →
      (ab8500_charger_max_usb_curr s link nc v).1.flags = s.flags) ∧
    (link = .USB_STAT_RESERVED →
      (ab8500_charger_max_usb_curr s link nc v).1.flags =
        { s.flags with vbus_collapse := decide (v &&& 0x04 = 0) }) := by
  refine ⟨?_, maxUsbCurr_flags_nonreserved s link nc v, ?_⟩
  · by_cases hl : link = .USB_STAT_RESERVED
    · subst hl
      rw [maxUsbCurr_flags_reserved]
    · rw [maxUsbCurr_flags_nonreserved s link nc v hl]
  · intro hl
    subst hl
    exact maxUsbCurr_flags_reserved s nc v

/-- Witness for C5 (amended): a DEDICATED_CHG classification leaves the
event flags unchanged, and a failed RESERVED recovery sets exactly
`vbus_collapse`. -/
theorem C5_amended_classification_witness :
    (ab8500_charger_max_usb_curr
      ⟨500, false, 0,
        ⟨false, false, false, false, false, false, false, false, false⟩, 500⟩
      .USB_STAT_DEDICATED_CHG 0 0).1.flags =
      ⟨false, false, false, false, false, false, false, false, false⟩ ∧
    (ab8500_charger_max_usb_curr
      ⟨500, false, 0,
        ⟨false, false, false, false, false, false, false, false, false⟩, 500⟩
      .USB_STAT_RESERVED 0 0).1.flags =
      ⟨false, false, false, false, false, false, true, false, false⟩ :=
  ⟨(C5_amended_classification_touches_only_vbus_collapse
      ⟨500, false, 0,
        ⟨false, false, false, false, false, false, false, false, false⟩, 500⟩
      .USB_STAT_DEDICATED_CHG 0 0).2.1 (by decide),
   by
    have h := (C5_amended_classification_touches_only_vbus_collapse
      ⟨500, false, 0,
        ⟨false, false, false, false, false, false, false, false, false⟩, 500⟩
      .USB_STAT_RESERVED 0 0).2.2 rfl
    rw [h]
    decide⟩

/-! ## Exposed health property
(`ab8500_charger_usb_get_property`, POWER_SUPPLY_PROP_HEALTH branch,
lines 2309-2321).  The watchdog condition the code tests is
`di->ac.wd_expired || di->usb.wd_expired`, which are fields of the two
charger instances, passed here as separate parameters. -/

inductive PowerSupplyHealth where
  | UNKNOWN
  | UNSPEC_FAILURE
  | DEAD
  | OVERHEAT
  | OVERVOLTAGE
  | GOOD
deriving Repr, DecidableEq

/-- The health derivation of `ab8500_charger_usb_get_property`
(lines 2310-2321). -/
def ab8500_charger_usb_get_property_health (flags : EventFlags)
    (acWdExpired usbWdExpired : Bool) : PowerSupplyHealth :=
  if flags.report_charger_no_charge then .UNKNOWN
  else if flags.usbchargernotok then .UNSPEC_FAILURE
  else if acWdExpired || usbWdExpired then .DEAD
  else if flags.usb_thermal_prot then .OVERHEAT
  else if flags.vbus_ovv then .OVERVOLTAGE
  else .GOOD

/-- The claimed strict priority order, written independently as a
first-match scan over the ordered condition list. -/
def healthFromPriority (noCharger notOk wd overheat ovv : Bool) :
    PowerSupplyHealth :=
  ((([(noCharger, PowerSupplyHealth.UNKNOWN),
      (notOk, PowerSupplyHealth.UNSPEC_FAILURE),
      (wd, PowerSupplyHealth.DEAD),
      (overheat, PowerSupplyHealth.OVERHEAT),
      (ovv, PowerSupplyHealth.OVERVOLTAGE)].find?
    (fun p => p.1)).map (fun p => p.2)).getD .GOOD)

/-- C6 counterexample: a state where both the watchdog-expired condition and
the usb-thermal-protection flag hold but `report_charger_no_charge` is also
set reports UNKNOWN, not DEAD: the final clause of the claim does not hold
for every such state. -/
theorem C6_counterexample_health_dead :
    ab8500_charger_usb_get_property_health
      ⟨false, false, true, false, false, false, false, false, true⟩
      true false = .UNKNOWN ∧
    PowerSupplyHealth.UNKNOWN ≠ PowerSupplyHealth.DEAD := by
  refine ⟨by decide, by decide⟩

/-- C6 (amended): the health property equals the first-match scan of the
priority list no-charger-detected, charger-not-ok, watchdog-expired,
thermal-overheat, overvoltage, defaulting to GOOD; consequently every state
with both the watchdog-expired condition and the usb-thermal flag set, and
no higher-priority condition (no-charger-detected, charger-not-ok) active,
reports DEAD. -/
theorem C6_amended_health_priority :
    (∀ (flags : EventFlags) (acWd usbWd : Bool),
      ab8500_charger_usb_get_property_health flags acWd usbWd =
        healthFromPriority flags.report_charger_no_charge
          flags.usbchargernotok (acWd || usbWd) flags.usb_thermal_prot
          flags.vbus_ovv) ∧
    (∀ (flags : EventFlags) (acWd usbWd : Bool),
      (acWd || usbWd) = true → flags.usb_thermal_prot = true →
      flags.report_charger_no_charge = false →
      flags.usbchargernotok = false →
      ab8500_charger_usb_get_property_health flags acWd usbWd = .DEAD) := by
  constructor
  · intro flags acWd usbWd
    obtain ⟨a, b, c, d, e, f, g, h, i⟩ := flags
    revert acWd usbWd
    revert a b c d e f g h i
    decide
  · intro flags acWd usbWd
    obtain ⟨a, b, c, d, e, f, g, h, i⟩ := flags
    revert acWd usbWd
    revert a b c d e f g h i
    decide

/-- Witness for C6 (amended): a concrete state with the watchdog expired and
the thermal flag set, the two higher-priority conditions clear, reports
DEAD. -/
theorem C6_amended_health_priority_witness :
    ((true || false) = true ∧
     (⟨false, false, true, true, false, false, false, false, false⟩ :
        EventFlags).usb_thermal_prot = true) ∧
    ab8500_charger_usb_get_property_health
      ⟨false, false, true, true, false, false, false, false, false⟩
      true false = .DEAD :=
  ⟨⟨by decide, by decide⟩,
   C6_amended_health_priority.2
     ⟨false, false, true, true, false, false, false, false, false⟩
     true false (by decide) (by decide) (by decide) (by decide)⟩

/-! ## Charger detection (`ab8500_charger_detect_chargers`, lines 510-554)

Modelled as a function of the byte read from
`AB8500_CH_USBCH_STAT1_REG`; the `probe` parameter only selects whether
the 110 ms settle delay is taken before sampling and does not influence
the returned mask, and the read is modelled as succeeding.  This version
of the driver contains no AC main-charger check: the result starts at
`NO_PW_CONN` and only the USB bit can be set. -/

def ab8500_charger_detect_chargers (probe : Bool) (statVal : Nat) : Int :=
  if statVal &&& VBUS_DET_DBNC1 ≠ 0 ∧ statVal &&& VBUS_DET_DBNC100 ≠ 0 then
    NO_PW_CONN + USB_PW_CONN
  else
    NO_PW_CONN

/-- C10 counterexample: even with every bit of the sampled status byte set
(in particular whatever state the AC main charger is in), the detection
result is exactly the USB mask: the AC bit is never reported by this
function, which reads only the USB charger status register. -/
theorem C10_counterexample_no_ac_detection :
    ab8500_charger_detect_chargers true 0xFF = USB_PW_CONN ∧
    USB_PW_CONN ≠ AC_PW_CONN ∧
    USB_PW_CONN ≠ AC_PW_CONN + USB_PW_CONN := by
  refine ⟨by decide, by decide, by decide⟩

/-- C10 (amended): for every sampled status byte, detection reports USB
exactly when both debounced VBUS-detected bits (VBUS_DET_DBNC1 and
VBUS_DET_DBNC100) are set, reports no source otherwise, and never reports
the AC main charger (this driver version performs no AC detection in this
function). -/
theorem C10_amended_usb_only_detection (probe : Bool) (v : Nat) :
    (ab8500_charger_detect_chargers probe v = USB_PW_CONN ↔
      (v &&& VBUS_DET_DBNC1 ≠ 0 ∧ v &&& VBUS_DET_DBNC100 ≠ 0)) ∧
    (ab8500_charger_detect_chargers probe v = NO_PW_CONN ↔
      ¬(v &&& VBUS_DET_DBNC1 ≠ 0 ∧ v &&& VBUS_DET_DBNC100 ≠ 0)) ∧
    ab8500_charger_detect_chargers probe v ≠ AC_PW_CONN ∧
    ab8500_charger_detect_chargers probe v ≠ AC_PW_CONN + USB_PW_CONN := by
  by_cases h : v &&& VBUS_DET_DBNC1 ≠ 0 ∧ v &&& VBUS_DET_DBNC100 ≠ 0 <;>
    simp [ab8500_charger_detect_chargers, h, NO_PW_CONN, USB_PW_CONN,
      AC_PW_CONN]

end AB8500
